import Mathlib

/-!
Shallow embedding of the `aid` C++ library core:
the `aid::core::Result<Ok, Err>` success-or-failure container
(src/include/aid/core/result.hpp) and the `aid::mpsc::MpscQueue<T>`
mutex-guarded FIFO (src/include/aid/mpsc/mpsc_queue.hpp,
src/include/aid/mpsc/mpsc_error.hpp).

Modelling conventions:
* `Result` is embedded exactly as the C++ class stores it: two independent
  `Option` slots (`Oke`, `Erre`).
* A diagnostic written to `std::clog` followed by `std::exit(1)` is modelled
  as `Except.error msg`; a normal return is `Except.ok`.
* Dereferencing an empty `std::optional` (`*Oke` / `*Erre` without a value)
  is undefined behaviour in C++; where a member function can reach such a
  dereference it is modelled as `Option` with `none` for the UB case.
* Moving a payload out of a `std::optional` leaves the optional engaged
  (`has_value()` stays true); only an explicit reassignment such as
  `Oke = std::optional<Ok>{}` disengages the slot.  The embedding keeps the
  slot populated unless the C++ code performs that reassignment; for the
  trivially-copyable payloads used in the concrete instances a moved-from
  value is unchanged.
* The mutex serialises all queue operations, so the sequential behaviour is
  modelled directly: the queue state is the ordered list of pending values.
-/

namespace aid.core

/-- The two-optional state of `Result<Ok, Err>`: field `Oke` is the success
slot, field `Erre` the failure slot, as in the private members of the C++
class. -/
structure Result (Ok Err : Type) where
  Oke : Option Ok
  Erre : Option Err
deriving DecidableEq

/-- The raw checking constructor `Result(std::optional<Ok>, std::optional<Err>)`:
exits (modelled as `Except.error`) when both slots are populated or neither is,
otherwise stores both optionals. -/
def mkResult {Ok Err : Type} (okv : Option Ok) (errv : Option Err) :
    Except String (Result Ok Err) :=
  let has_ok := okv.isSome
  let has_err := errv.isSome
  if has_ok && has_err then
    Except.error "Trying to construct a Result with both an Ok and Err value."
  else if !has_ok && !has_err then
    Except.error "Trying to construct a Result without an Ok or an Err value."
  else
    Except.ok ⟨okv, errv⟩

/-- The helper `aid::core::ok<Ok, Err>(value)`: calls the raw constructor with
a populated success slot and an empty failure slot, which never exits. -/
def ok {Ok Err : Type} (v : Ok) : Result Ok Err := ⟨some v, none⟩

/-- The helper `aid::core::err<Ok, Err>(value)`: calls the raw constructor with
an empty success slot and a populated failure slot, which never exits. -/
def err {Ok Err : Type} (v : Err) : Result Ok Err := ⟨none, some v⟩

/-- `Result::isOk()`: true iff the success slot is populated. -/
def Result.isOk {Ok Err : Type} (r : Result Ok Err) : Bool := r.Oke.isSome

/-- `Result::isErr()`: true iff the failure slot is populated. -/
def Result.isErr {Ok Err : Type} (r : Result Ok Err) : Bool := r.Erre.isSome

/-- `Result::operator==`: compares the success slots and the failure slots. -/
def Result.beq {Ok Err : Type} [DecidableEq Ok] [DecidableEq Err]
    (r rhs : Result Ok Err) : Bool :=
  decide (r.Oke = rhs.Oke) && decide (r.Erre = rhs.Erre)

/-- `Result::operator!=` as written in the source: its body is
`return rhs != *this;`, i.e. it calls itself with the operands swapped and has
no other exit.  The embedding makes the recursion explicit with a fuel
parameter; running out of fuel (`none`) models the call that never returns. -/
def Result.neqFuel {Ok Err : Type} :
    Nat → Result Ok Err → Result Ok Err → Option Bool
  | 0, _, _ => none
  | Nat.succ n, a, b => Result.neqFuel n b a

/-- `Result::map(F)`: on success, builds a new `Result` from `F` applied to the
moved-out success value; on failure, moves the failure value into the new
`Result`; with neither slot populated it logs and exits. -/
def Result.map {Ok Ok2 Err : Type} (r : Result Ok Err) (F : Ok → Ok2) :
    Except String (Result Ok2 Err) :=
  if h : r.Oke.isSome then
    Except.ok ⟨some (F (r.Oke.get h)), none⟩
  else if h2 : r.Erre.isSome then
    Except.ok ⟨none, some (r.Erre.get h2)⟩
  else
    Except.error
      "Trying to apply a map function to a Result that has no value and no error."

/-- `Result::mapOrElse(Df, F)`: applies `F` to the moved-out success value when
`isOk()`, otherwise applies `Df` to `*Erre`; the dereference of an empty
failure slot in the else branch is UB, modelled by `none`. -/
def Result.mapOrElse {Ok Err U : Type} (r : Result Ok Err)
    (Df : Err → U) (F : Ok → U) : Option U :=
  if h : r.Oke.isSome then
    some (F (r.Oke.get h))
  else
    r.Erre.map Df

/-- `Result::andThen(F)`: on success returns `F` applied to the moved-out
success value; otherwise rebuilds a failure `Result` from `*Erre` (UB when the
failure slot is empty, modelled by `none`).  The failure branch constructs
`err<Ok, R::ErrType>`, so the instantiation forces the callback's success type
to coincide with `Ok`; the embedding is therefore homogeneous in `Ok`. -/
def Result.andThen {Ok Err : Type} (r : Result Ok Err)
    (F : Ok → Result Ok Err) : Option (Result Ok Err) :=
  if h : r.Oke.isSome then
    some (F (r.Oke.get h))
  else
    r.Erre.map (fun e => err e)

/-- `Result::value()`: moves the success payload out, reassigns the success
slot to an empty optional, and returns the payload with the updated object;
with no success value it logs and exits. -/
def Result.value {Ok Err : Type} (r : Result Ok Err) :
    Except String (Ok × Result Ok Err) :=
  if h : r.Oke.isSome then
    Except.ok (r.Oke.get h, ⟨none, r.Erre⟩)
  else
    Except.error "Trying to get the value of a result which doesn't have a value"

/-- `Result::valueOr(Default)`: with no success value returns `Default` and
leaves the object untouched; otherwise moves the payload out and reassigns the
success slot to an empty optional.  No exit path exists. -/
def Result.valueOr {Ok Err : Type} (r : Result Ok Err) (Default : Ok) :
    Ok × Result Ok Err :=
  if h : r.Oke.isSome then
    (r.Oke.get h, ⟨none, r.Erre⟩)
  else
    (Default, r)

/-- `Result::expectErr(msg)`: when `isErr()`, returns `std::move(*Erre)`
without reassigning the failure slot, so the object keeps its failure slot
engaged; otherwise logs `msg` and exits.  (The C++ declares the return type as
`Ok`, so instantiation requires the payload of the failure slot to convert to
`Ok`; the payload returned is the failure value.) -/
def Result.expectErr {Ok Err : Type} (r : Result Ok Err) (msg : String) :
    Except String (Err × Result Ok Err) :=
  if h : r.Erre.isSome then
    Except.ok (r.Erre.get h, r)
  else
    Except.error msg

/-- `Result::err()`: moves the failure payload out, reassigns the failure slot
to an empty optional, and returns the payload with the updated object; with no
failure value it logs and exits. -/
def Result.errOut {Ok Err : Type} (r : Result Ok Err) :
    Except String (Err × Result Ok Err) :=
  if h : r.Erre.isSome then
    Except.ok (r.Erre.get h, ⟨r.Oke, none⟩)
  else
    Except.error "Trying to get the error of a result which doesn't have an error"

/-- The test helper `sq` from src/tests/src/result.cpp: squares into a success
`Result`. -/
def sq (x : Int) : Result Int Int := ok (x * x)

/-- The test helper `er` from src/tests/src/result.cpp: wraps into a failure
`Result`. -/
def er (x : Int) : Result Int Int := err x

end aid.core

namespace aid.mpsc

/-- The `aid::mpsc::MpscError` enumeration. -/
inductive MpscError : Type where
  | Sender
  | Receiver
  | EmptyQueue
deriving DecidableEq

/-- `MpscQueue<T>`: `Q` is the ordered sequence of pending values with the
front of the `std::queue` at the head of the list.  The mutex serialises all
operations, so the sequential state is just the list. -/
structure MpscQueue (T : Type) where
  Q : List T
deriving DecidableEq

/-- `MpscQueue::push(value)`: appends to the back of the queue under the
lock. -/
def MpscQueue.push {T : Type} (q : MpscQueue T) (v : T) : MpscQueue T :=
  ⟨q.Q ++ [v]⟩

/-- `MpscQueue::pop()`: under the lock, if the queue is non-empty, moves the
front element out, removes it, and returns it as a success `Result`; otherwise
returns a failure `Result` carrying `MpscError::EmptyQueue`. -/
def MpscQueue.pop {T : Type} (q : MpscQueue T) :
    aid.core.Result T MpscError × MpscQueue T :=
  match q.Q with
  | [] => (aid.core.err MpscError.EmptyQueue, q)
  | x :: rest => (aid.core.ok x, ⟨rest⟩)

/-- A sequence of `push` calls, oldest first. -/
def MpscQueue.pushAll {T : Type} (q : MpscQueue T) (vs : List T) : MpscQueue T :=
  vs.foldl MpscQueue.push q

/-- `n` consecutive `pop` calls, collecting the returned `Result`s in call
order together with the final queue state. -/
def MpscQueue.popList {T : Type} : MpscQueue T → Nat →
    List (aid.core.Result T MpscError) × MpscQueue T
  | q, 0 => ([], q)
  | q, Nat.succ n =>
    let p := q.pop
    let rest := MpscQueue.popList p.2 n
    (p.1 :: rest.1, rest.2)

end aid.mpsc

namespace aid.core

/-- C1: Outcomes built through `ok` or `err` satisfy `isOk() != isErr()` (they
agree with what the raw checking constructor produces on those slot
combinations), and the raw constructor rejects a doubly-populated or
doubly-empty slot pair by logging a diagnostic and exiting instead of
producing an object. -/
theorem exclusivity_invariant {Ok Err : Type} (v : Ok) (e : Err) (a : Ok) (b : Err) :
    ((ok v : Result Ok Err).isOk ≠ (ok v : Result Ok Err).isErr)
    ∧ ((err e : Result Ok Err).isOk ≠ (err e : Result Ok Err).isErr)
    ∧ mkResult (some v) (none : Option Err) = Except.ok (ok v)
    ∧ mkResult (none : Option Ok) (some e) = Except.ok (err e)
    ∧ (∃ msg, mkResult (some a) (some b) = Except.error msg)
    ∧ (∃ msg, mkResult (none : Option Ok) (none : Option Err) = Except.error msg) := by
  refine ⟨?_, ?_, rfl, rfl, ⟨_, rfl⟩, ⟨_, rfl⟩⟩ <;>
    simp [ok, err, Result.isOk, Result.isErr]

/-- C4: `andThen` chains short-circuit on the first failure: the three
concrete chains from the spec evaluate as stated, on success `andThen F`
returns exactly the result of `F`, and on failure it propagates the original
failure value unchanged. -/
theorem andThen_short_circuit :
    (((ok (2 : Int) : Result Int Int).andThen sq).bind (fun r => r.andThen sq)
        = some (ok 16))
    ∧ (((ok (2 : Int) : Result Int Int).andThen er).bind (fun r => r.andThen sq)
        = some (err 2))
    ∧ (((err (3 : Int) : Result Int Int).andThen sq).bind (fun r => r.andThen sq)
        = some (err 3))
    ∧ (∀ {Ok Err : Type} (v : Ok) (F : Ok → Result Ok Err),
        (ok v : Result Ok Err).andThen F = some (F v))
    ∧ (∀ {Ok Err : Type} (e : Err) (F : Ok → Result Ok Err),
        (err e : Result Ok Err).andThen F = some (err e)) := by
  refine ⟨by decide, by decide, by decide, ?_, ?_⟩ <;>
    · intro Ok Err x F
      simp [Result.andThen, ok, err]

/-- C5 counterexample: on `err 5`, `expectErr` returns the failure payload but
does not leave the failure slot in the consumed state — the returned instance
still has its failure slot populated and still reports `isErr`, contradicting
the claim that `expectFailure` consumes the slot the way `failure()` does. -/
theorem expectErr_not_consuming_cex :
    ∃ p : Int × Result Int Int,
      (err (5 : Int) : Result Int Int).expectErr "boom" = Except.ok p
      ∧ p.1 = 5 ∧ p.2.isErr = true ∧ p.2.Erre ≠ none :=
  ⟨(5, err 5), rfl, rfl, rfl, by simp [err]⟩

/-- C5 amended: on a failure Outcome, `expectErr(msg)` returns the failure
payload and leaves the failure slot populated (the instance still reports
`isErr`), and on an Outcome not holding a failure value it reports `msg` and
exits. -/
theorem expectErr_behaviour {Ok Err : Type} (e : Err) (msg : String)
    (r : Result Ok Err) (h : r.isErr = false) :
    (err e : Result Ok Err).expectErr msg = Except.ok (e, err e)
    ∧ ((err e : Result Ok Err).expectErr msg).map (fun p => p.2.isErr)
        = Except.ok true
    ∧ r.expectErr msg = Except.error msg := by
  refine ⟨rfl, rfl, ?_⟩
  simp [Result.isErr] at h
  simp [Result.expectErr, h]

/-- C5 witness: the amended theorem applied at `err 5` and at the non-failure
instance `ok 1`. -/
theorem expectErr_behaviour_witness :
    ((ok (1 : Int) : Result Int Int).isErr = false)
    ∧ ((err (5 : Int) : Result Int Int).expectErr "m" = Except.ok (5, err 5)
      ∧ ((err (5 : Int) : Result Int Int).expectErr "m").map (fun p => p.2.isErr)
          = Except.ok true
      ∧ (ok (1 : Int) : Result Int Int).expectErr "m" = Except.error "m") :=
  ⟨rfl, expectErr_behaviour 5 "m" (ok 1) rfl⟩

/-- C6: `value()` on a success Outcome moves the payload out and empties the
success slot, and a second `value()` call on the resulting instance is a
contract violation: it yields a diagnostic and exit, not a value. -/
theorem value_double_call {Ok Err : Type} (v : Ok) :
    ∃ r2 : Result Ok Err,
      (ok v : Result Ok Err).value = Except.ok (v, r2)
      ∧ r2.isOk = false
      ∧ (∃ msg, r2.value = Except.error msg) := by
  refine ⟨⟨none, none⟩, ?_, rfl, ⟨_, rfl⟩⟩
  simp [Result.value, ok]

/-- C7: `map` is the identity on failures: for a failure Outcome the result is
a failure Outcome carrying the original failure value unchanged, and the
mapped function is not applied (the result does not depend on it). -/
theorem map_identity_on_failure {Ok Ok2 Err : Type} (e : Err) (F G : Ok → Ok2) :
    (err e : Result Ok Err).map F = Except.ok (err e)
    ∧ (err e : Result Ok Err).map F = (err e : Result Ok Err).map G := by
  constructor <;> simp [Result.map, err]

/-- C8: on every valid Outcome (exactly one slot populated), `mapOrElse`
applies exactly one of the two functions, chosen solely by `isOk()`: the
success function to the stored success value when `isOk()`, otherwise the
failure function to the stored failure value. -/
theorem mapOrElse_exhaustive {Ok Err U : Type} (r : Result Ok Err)
    (Df : Err → U) (F : Ok → U) (h : r.isOk ≠ r.isErr) :
    (r.isOk = true → ∃ s, r.Oke = some s ∧ r.mapOrElse Df F = some (F s))
    ∧ (r.isOk = false → ∃ e, r.Erre = some e ∧ r.mapOrElse Df F = some (Df e)) := by
  constructor
  · intro h1
    simp [Result.isOk, Option.isSome_iff_exists] at h1
    obtain ⟨s, hs⟩ := h1
    exact ⟨s, hs, by simp [Result.mapOrElse, hs]⟩
  · intro h1
    have h2 : r.isErr = true := by
      cases hE : r.isErr
      · exact absurd (h1.trans hE.symm) h
      · rfl
    simp [Result.isOk] at h1
    simp [Result.isErr, Option.isSome_iff_exists] at h2
    obtain ⟨e, he⟩ := h2
    exact ⟨e, he, by simp [Result.mapOrElse, h1, he]⟩

/-- C8 witness: the theorem applied at the valid Outcome `ok 2` with concrete
success and failure functions. -/
theorem mapOrElse_exhaustive_witness :
    ((ok (2 : Int) : Result Int Int).isOk ≠ (ok (2 : Int) : Result Int Int).isErr)
    ∧ (((ok (2 : Int) : Result Int Int).isOk = true →
          ∃ s, (ok (2 : Int) : Result Int Int).Oke = some s
            ∧ (ok (2 : Int) : Result Int Int).mapOrElse (fun e => e + 1) (fun s => s * 3)
                = some (s * 3))
      ∧ ((ok (2 : Int) : Result Int Int).isOk = false →
          ∃ e, (ok (2 : Int) : Result Int Int).Erre = some e
            ∧ (ok (2 : Int) : Result Int Int).mapOrElse (fun e => e + 1) (fun s => s * 3)
                = some (e + 1))) :=
  ⟨by decide, mapOrElse_exhaustive (ok 2) (fun e => e + 1) (fun s => s * 3) (by decide)⟩

/-- C9: the source's `operator!=` is `return rhs != *this;`, a self-call with
swapped operands and no base case, so it never produces a Boolean: for every
amount of fuel the recursion exhausts it. The claim that `a != b` terminates
with the negation of `a == b` fails on the code as written. -/
theorem neq_never_returns {Ok Err : Type} (fuel : Nat) :
    ∀ a b : Result Ok Err, Result.neqFuel fuel a b = none := by
  induction fuel with
  | zero => intro a b; rfl
  | succ n ih => intro a b; simpa [Result.neqFuel] using ih b a

/-- C10: on a failure Outcome, `valueOr(default)` returns the default value
(its type has no exit path, so the process never terminates here) and leaves
the failure slot unchanged: the instance still holds the same failure value
and still reports `isErr`. -/
theorem valueOr_on_failure {Ok Err : Type} (e : Err) (d : Ok) :
    (err e : Result Ok Err).valueOr d = (d, err e)
    ∧ ((err e : Result Ok Err).valueOr d).2.isErr = true
    ∧ ((err e : Result Ok Err).valueOr d).2.Erre = some e := by
  refine ⟨?_, ?_, ?_⟩ <;> simp [Result.valueOr, Result.isErr, err]

end aid.core

namespace aid.mpsc

theorem pushAll_eq {T : Type} (vs : List T) :
    ∀ q : MpscQueue T, q.pushAll vs = ⟨q.Q ++ vs⟩ := by
  induction vs with
  | nil => intro q; simp [MpscQueue.pushAll]
  | cons v vs ih =>
    intro q
    simp only [MpscQueue.pushAll, List.foldl_cons] at ih ⊢
    rw [show q.push v = (⟨q.Q ++ [v]⟩ : MpscQueue T) from rfl, ih]
    simp

theorem popList_drains {T : Type} (vs : List T) :
    MpscQueue.popList ⟨vs⟩ vs.length = (vs.map aid.core.ok, ⟨[]⟩) := by
  induction vs with
  | nil => rfl
  | cons v vs ih =>
    simp [MpscQueue.popList, MpscQueue.pop, ih]

/-- C2: pushing a sequence of values into a fresh queue and then popping once
per pushed value returns success Outcomes carrying exactly the pushed values
in push order and leaves the queue empty (strict FIFO, no duplication, no
loss); each single pop on a non-empty queue moves out the oldest element and
removes it. -/
theorem fifo_order {T : Type} (vs : List T) :
    MpscQueue.popList (MpscQueue.pushAll ⟨[]⟩ vs) vs.length
        = (vs.map aid.core.ok, ⟨[]⟩)
    ∧ (∀ (x : T) (rest : List T),
        (⟨x :: rest⟩ : MpscQueue T).pop = (aid.core.ok x, ⟨rest⟩)) := by
  constructor
  · rw [pushAll_eq vs ⟨[]⟩]
    simpa using popList_drains vs
  · intro x rest
    rfl

/-- C3: popping a freshly constructed, never-pushed queue returns a failure
Outcome carrying `MpscError.EmptyQueue`, and any number of repeated pops keep
returning that same failure while leaving the queue unchanged. -/
theorem empty_pop_idempotent {T : Type} (n : Nat) :
    (⟨[]⟩ : MpscQueue T).pop = (aid.core.err MpscError.EmptyQueue, ⟨[]⟩)
    ∧ MpscQueue.popList (⟨[]⟩ : MpscQueue T) n
        = (List.replicate n (aid.core.err MpscError.EmptyQueue), ⟨[]⟩) := by
  refine ⟨rfl, ?_⟩
  induction n with
  | zero => rfl
  | succ n ih =>
    simp [MpscQueue.popList, MpscQueue.pop, ih, List.replicate]

end aid.mpsc
